import Mathlib

/-!
Verification development for the Assessment and Compliance Scoring Pipeline
of the azure-security-platform repository.

The Python modules under verification are embedded shallowly:

* backend/assessment/grading.py   -> scoring and grading functions
* backend/compliance/mapper.py    -> ComplianceMapper.map_to_framework
* backend/assessment/engine.py    -> AssessmentEngine._generate_findings
* backend/assessment/comparison.py -> ComparisonEngine._compare_findings
* run_assessment.py               -> CLI pipeline control flow (artifact trace)

Modelling conventions:

* Python floats are modelled as exact rationals; Python round(x, 1) is
  modelled as exact round-half-to-even at one decimal.
* Python dicts with optional keys become structures with Option fields;
  d.get(key, default) becomes Option.getD.
* A raw-snapshot domain entry is either absent, an error sentinel produced
  by the collection orchestrator, or a payload.  Reading a metric key from
  an error-sentinel dict behaves exactly like reading from an absent one,
  because the sentinel dict carries no metric keys.
* String manipulation from the source (split, startswith, lower, substring
  membership) is implemented over character lists so that concrete
  instances evaluate inside the kernel.
* Python list.sort (stable) is modelled by List.insertionSort, which is
  stable and produces the same result for the same key function.
-/

namespace AzureSec

/-! ## Character-list string helpers -/

/-- Prefix test on character lists, mirroring str.startswith. -/
def isPrefixChars : List Char → List Char → Bool
  | [], _ => true
  | _ :: _, [] => false
  | a :: as, b :: bs => a == b && isPrefixChars as bs

/-- Substring test on character lists, mirroring the Python in operator. -/
def isInfixChars (pat : List Char) : List Char → Bool
  | [] => pat.isEmpty
  | l@(_ :: rest) => isPrefixChars pat l || isInfixChars pat rest

/-- Test whether the string pre is a prefix of s, mirroring s.startswith(pre). -/
def strStartsWith (s pre : String) : Bool := isPrefixChars pre.data s.data

/-- Test whether pat occurs inside s, mirroring Python pat in s. -/
def strContains (s pat : String) : Bool := isInfixChars pat.data s.data

/-- Lower-case a string, mirroring str.lower (ASCII is all the source needs). -/
def strLower (s : String) : String := ⟨s.data.map Char.toLower⟩

/-- Upper-case a string, mirroring str.upper (ASCII is all the source needs). -/
def strUpper (s : String) : String := ⟨s.data.map Char.toUpper⟩

/-- Split a character list on a separator character, mirroring str.split(sep)
for a one-character separator.  The result is always non-empty. -/
def splitOnChar (c : Char) : List Char → List (List Char)
  | [] => [[]]
  | x :: rest =>
    let r := splitOnChar c rest
    if x == c then [] :: r
    else
      match r with
      | [] => [[x]]
      | h :: t => (x :: h) :: t

/-- Split a string on a one-character separator, mirroring str.split(sep). -/
def strSplitOn (c : Char) (s : String) : List String :=
  (splitOnChar c s.data).map (fun cs => ⟨cs⟩)

/-- Join strings with a separator, mirroring sep.join(parts). -/
def joinSep (sep : String) : List String → String
  | [] => ""
  | [x] => x
  | x :: rest => x ++ sep ++ joinSep sep rest

/-- Accumulating worker for dedupFirst; seen holds keys already emitted. -/
def dedupFirstAux (seen : List String) : List String → List String
  | [] => []
  | x :: rest => if seen.contains x then dedupFirstAux seen rest else x :: dedupFirstAux (x :: seen) rest

/-- Keep the first occurrence of every element, mirroring the key set of a
Python dict built by repeated insertion (first insertion fixes position). -/
def dedupFirst (l : List String) : List String := dedupFirstAux [] l

/-! ## Raw snapshot data model

Mirrors the dict shapes produced by AssessmentEngine.collect_all and read by
grading.py, engine.py and mapper.py. -/

/-- One raw-snapshot domain entry: the key can be absent from the snapshot
dict, hold the orchestrator error sentinel, or hold the collected payload. -/
inductive DomainEntry (α : Type) where
  | absent
  | errorSentinel (msg : String)
  | collected (d : α)

/-- Reading the whole-domain dict: raw_data.get(domain, empty-dict).  An
error-sentinel dict carries no metric keys, so every metric read from it
falls back to its default, exactly as for an absent domain. -/
def DomainEntry.payload (empty : α) : DomainEntry α → α
  | .absent => empty
  | .errorSentinel _ => empty
  | .collected d => d

/-- The domain entry is absent or holds the error sentinel. -/
def DomainEntry.isDegraded : DomainEntry α → Prop
  | .absent => True
  | .errorSentinel _ => True
  | .collected _ => False

/-- The mfa_coverage sub-dict of the identity domain. -/
structure MfaCoverage where
  admin_coverage_percent : Option ℚ := none
  user_coverage_percent : Option ℚ := none
  total_admins : Option ℤ := none
  admins_with_mfa : Option ℤ := none
  total_users : Option ℤ := none
  users_with_mfa : Option ℤ := none

/-- Empty mfa_coverage dict. -/
def MfaCoverage.empty : MfaCoverage := {}

/-- The privileged_accounts sub-dict of the identity domain. -/
structure PrivilegedAccounts where
  global_admin_count : Option ℤ := none

/-- Empty privileged_accounts dict. -/
def PrivilegedAccounts.empty : PrivilegedAccounts := {}

/-- The risky_users sub-dict of the identity domain. -/
structure RiskyUsers where
  high_risk_count : Option ℤ := none

/-- Empty risky_users dict. -/
def RiskyUsers.empty : RiskyUsers := {}

/-- One conditional-access policy record (only the state key is read). -/
structure CAPolicy where
  state : Option String := none

/-- The identity domain payload. -/
structure IdentityData where
  mfa_coverage : Option MfaCoverage := none
  privileged_accounts : Option PrivilegedAccounts := none
  risky_users : Option RiskyUsers := none
  conditional_access_policies : Option (List CAPolicy) := none
  users_without_mfa : List String := []
  privileged_users_detail : List String := []
  risky_users_detail : List String := []

/-- Empty identity dict. -/
def IdentityData.empty : IdentityData := {}

/-- The compliance sub-dict of the devices domain. -/
structure DeviceCompliance where
  compliance_percent : Option ℚ := none
  non_compliant_count : Option ℤ := none

/-- Empty device-compliance dict. -/
def DeviceCompliance.empty : DeviceCompliance := {}

/-- The devices domain payload. -/
structure DeviceData where
  compliance : Option DeviceCompliance := none
  non_compliant_devices : List String := []

/-- Empty devices dict. -/
def DeviceData.empty : DeviceData := {}

/-- The health sub-dict of the backup domain. -/
structure BackupHealth where
  status : Option String := none
  protected_percent : Option ℚ := none

/-- Empty backup-health dict. -/
def BackupHealth.empty : BackupHealth := {}

/-- The recovery_readiness sub-dict of the backup domain. -/
structure RecoveryReadiness where
  rto_status : Option String := none
  rpo_status : Option String := none

/-- Empty recovery-readiness dict. -/
def RecoveryReadiness.empty : RecoveryReadiness := {}

/-- The backup domain payload. -/
structure BackupData where
  health : Option BackupHealth := none
  recovery_readiness : Option RecoveryReadiness := none

/-- Empty backup dict. -/
def BackupData.empty : BackupData := {}

/-- The summary sub-dict of the threats domain. -/
structure ThreatSummary where
  critical_count : Option ℤ := none

/-- Empty threat-summary dict. -/
def ThreatSummary.empty : ThreatSummary := {}

/-- The threats domain payload. -/
structure ThreatData where
  summary : Option ThreatSummary := none
  active_alerts : List String := []

/-- Empty threats dict. -/
def ThreatData.empty : ThreatData := {}

/-- One entry of the controls list inside the secure_score domain. -/
structure SSControl where
  name : Option String := none
  score : Option ℚ := none
  max_score : Option ℚ := none

/-- The secure_score domain payload (only the controls list is read by the
category scorers). -/
structure SecureScoreData where
  controls : Option (List SSControl) := none

/-- Empty secure-score dict. -/
def SecureScoreData.empty : SecureScoreData := {}

/-- The raw snapshot assembled by AssessmentEngine.collect_all: a mapping from
the five fixed domain keys to payload or error sentinel. -/
structure RawSnapshot where
  secure_score : DomainEntry SecureScoreData := .absent
  identity : DomainEntry IdentityData := .absent
  devices : DomainEntry DeviceData := .absent
  threats : DomainEntry ThreatData := .absent
  backup : DomainEntry BackupData := .absent

/-- Snapshot with every domain key absent. -/
def RawSnapshot.empty : RawSnapshot := {}

/-! ## grading.py -/

/-- Embeds calculate_grade from grading.py. -/
def calculate_grade (score : ℚ) : String :=
  if score ≥ 90 then "A"
  else if score ≥ 75 then "B"
  else if score ≥ 60 then "C"
  else if score ≥ 40 then "D"
  else "F"

/-- The category_scores argument of calculate_overall_score: a dict in which
any of the five weighted categories may be missing. -/
structure CategoryScoresIn where
  identity : Option ℚ := none
  data_protection : Option ℚ := none
  backup : Option ℚ := none
  devices : Option ℚ := none
  network : Option ℚ := none

/-- Embeds calculate_overall_score from grading.py: secure score weighted at
0.30, then each category at its weight, defaulting a missing category to 50,
finally clamped into the interval from 0 to 100. -/
def calculate_overall_score (secure_score : ℚ) (category_scores : CategoryScoresIn) : ℚ :=
  min 100 (max 0
    (secure_score * 0.30
      + (category_scores.identity.getD 50) * 0.25
      + (category_scores.data_protection.getD 50) * 0.15
      + (category_scores.backup.getD 50) * 0.15
      + (category_scores.devices.getD 50) * 0.10
      + (category_scores.network.getD 50) * 0.05))

/-- Embeds _calculate_identity_score from grading.py. -/
def calculate_identity_score (identity_data : IdentityData) : ℚ :=
  let mfa := identity_data.mfa_coverage.getD .empty
  let admin_mfa := mfa.admin_coverage_percent.getD 0
  let user_mfa := mfa.user_coverage_percent.getD 0
  let mfa_score := (admin_mfa * 0.6 + user_mfa * 0.4) * 0.40
  let priv := identity_data.privileged_accounts.getD .empty
  let global_admins := priv.global_admin_count.getD 0
  let priv_score : ℚ :=
    if global_admins ≤ 4 then 30
    else if global_admins ≤ 6 then 20
    else if global_admins ≤ 10 then 10
    else 0
  let risky := identity_data.risky_users.getD .empty
  let high_risk := risky.high_risk_count.getD 0
  let risk_score : ℚ := if high_risk = 0 then 20 else if high_risk ≤ 2 then 10 else 0
  let ca_policies := identity_data.conditional_access_policies.getD []
  let enabled_policies := (ca_policies.filter (fun p => p.state == some "enabled")).length
  let ca_score : ℚ :=
    if enabled_policies ≥ 5 then 10
    else if enabled_policies ≥ 3 then 7
    else if enabled_policies ≥ 1 then 4
    else 0
  min 100 (max 0 (mfa_score + priv_score + risk_score + ca_score))

/-- Shared body of _calculate_data_protection_score and
_calculate_network_score: both return the default when the keyword-filtered
control list is empty or has zero total max score, and otherwise the earned
fraction of points scaled to 100.  The two source functions duplicate this
body verbatim up to keyword list and default. -/
def score_from_controls (matched : List SSControl) (dflt : ℚ) : ℚ :=
  if matched.isEmpty then dflt
  else
    let total_score := (matched.map (fun c => c.score.getD 0)).sum
    let total_max := (matched.map (fun c => c.max_score.getD 0)).sum
    if total_max = 0 then dflt
    else total_score / total_max * 100

/-- Keyword list of _calculate_data_protection_score. -/
def data_keywords : List String := ["encrypt", "dlp", "data", "information", "classification"]

/-- Keyword list of _calculate_network_score. -/
def network_keywords : List String := ["network", "firewall", "nsg", "vpn", "gateway"]

/-- Select the controls whose lower-cased name contains one of the keywords,
mirroring the list comprehensions in both secure-score based scorers. -/
def keyword_controls (secure_score_data : SecureScoreData) (keywords : List String) : List SSControl :=
  (secure_score_data.controls.getD []).filter
    (fun c => keywords.any (fun kw => strContains (strLower (c.name.getD "")) kw))

/-- Embeds _calculate_data_protection_score from grading.py. -/
def calculate_data_protection_score (secure_score_data : SecureScoreData) : ℚ :=
  score_from_controls (keyword_controls secure_score_data data_keywords) 60

/-- Embeds _calculate_network_score from grading.py. -/
def calculate_network_score (secure_score_data : SecureScoreData) : ℚ :=
  score_from_controls (keyword_controls secure_score_data network_keywords) 70

/-- Embeds _calculate_backup_score from grading.py. -/
def calculate_backup_score (backup_data : BackupData) : ℚ :=
  let health := backup_data.health.getD .empty
  let recovery := backup_data.recovery_readiness.getD .empty
  if health.status == some "not_configured" then 0
  else
    let coverage := health.protected_percent.getD 0
    let rto_score : ℚ :=
      if recovery.rto_status.getD "unknown" == "healthy" then 25
      else if recovery.rto_status.getD "unknown" == "warning" then 15
      else if recovery.rto_status.getD "unknown" == "at_risk" then 5
      else 0
    let rpo_score : ℚ :=
      if recovery.rpo_status.getD "unknown" == "healthy" then 25
      else if recovery.rpo_status.getD "unknown" == "warning" then 15
      else if recovery.rpo_status.getD "unknown" == "at_risk" then 5
      else 0
    min 100 (max 0 (coverage * 0.50 + rto_score + rpo_score))

/-- Embeds _calculate_device_score from grading.py: a direct passthrough of
compliance_percent with default 50 and no clamping. -/
def calculate_device_score (device_data : DeviceData) : ℚ :=
  (device_data.compliance.getD .empty).compliance_percent.getD 50

/-- Result record of calculate_category_scores (all five keys present). -/
structure CategoryScoresOut where
  identity : ℚ
  data_protection : ℚ
  backup : ℚ
  devices : ℚ
  network : ℚ

/-- Embeds calculate_category_scores from grading.py. -/
def calculate_category_scores (raw_data : RawSnapshot) : CategoryScoresOut where
  identity := calculate_identity_score (raw_data.identity.payload .empty)
  data_protection := calculate_data_protection_score (raw_data.secure_score.payload .empty)
  backup := calculate_backup_score (raw_data.backup.payload .empty)
  devices := calculate_device_score (raw_data.devices.payload .empty)
  network := calculate_network_score (raw_data.secure_score.payload .empty)

/-! ## Rounding

Python round(x, 1) on the ideal real value: round half to even at one
decimal place. -/

/-- Round a rational to the nearest integer, ties to even. -/
def roundHalfEven (q : ℚ) : ℤ :=
  let f := ⌊q⌋
  if q < (f : ℚ) + 1/2 then f
  else if (f : ℚ) + 1/2 < q then f + 1
  else if f % 2 = 0 then f else f + 1

/-- Round a rational to one decimal place, ties to even, modelling the
round(score, 1) call in mapper.py. -/
def round1 (q : ℚ) : ℚ := (roundHalfEven (10 * q) : ℚ) / 10

/-! ## Finding records

The finding dicts built by AssessmentEngine._generate_findings, projected to
the fields that mapper.py and comparison.py read (id, title, severity,
category, framework_controls, recommendation).  The free-text description
and the affected-resource samples are carried by the source dicts but never
read by any embedded computation. -/

/-- A normalized finding record. -/
structure Finding where
  id : String := ""
  title : String := ""
  severity : String := ""
  category : String := ""
  framework_controls : List String := []
  recommendation : String := ""

/-! ## mapper.py -/

/-- One control or criterion entry of a framework catalog document. -/
structure CatControl where
  id : Option String := none
  name : Option String := none

/-- One sections, control_families or control_categories entry: a named group
with a controls child list. -/
structure CatSection where
  name : Option String := none
  controls : List CatControl := []

/-- One trust_service_categories entry: a named group with a criteria child
list. -/
structure SocCategory where
  name : Option String := none
  criteria : List CatControl := []

/-- The framework sub-dict with display name and version. -/
structure FrameworkInfo where
  name : Option String := none
  version : Option String := none

/-- Empty framework info dict. -/
def FrameworkInfo.empty : FrameworkInfo := {}

/-- A framework catalog document.  The four known shapes are probed
unconditionally by the source, so the embedding carries all four top-level
lists; an absent key is the empty list. -/
structure FrameworkData where
  framework : Option FrameworkInfo := none
  sections : List CatSection := []
  control_families : List CatSection := []
  trust_service_categories : List SocCategory := []
  control_categories : List CatSection := []

/-- Empty catalog document, as used for an unknown or missing framework. -/
def FrameworkData.empty : FrameworkData := {}

/-- A flattened control row produced by _extract_all_controls.  The third
field carries the source dict key named section, which is a reserved word
here. -/
structure FlatControl where
  id : Option String
  name : Option String
  section_name : Option String

/-- Embeds ComplianceMapper._extract_all_controls: flatten the four catalog
shapes, in source order, into one uniform control list. -/
def extract_all_controls (fw_data : FrameworkData) : List FlatControl :=
  (fw_data.sections.flatMap (fun s =>
    s.controls.map (fun c => ⟨c.id, c.name, s.name⟩)))
  ++ (fw_data.control_families.flatMap (fun s =>
    s.controls.map (fun c => ⟨c.id, c.name, s.name⟩)))
  ++ (fw_data.trust_service_categories.flatMap (fun s =>
    s.criteria.map (fun c => ⟨c.id, c.name, s.name⟩)))
  ++ (fw_data.control_categories.flatMap (fun s =>
    s.controls.map (fun c => ⟨c.id, c.name, s.name⟩)))

/-- Embeds the static FINDING_TO_CONTROL_MAP table of ComplianceMapper as a
total function; a pair not in the table maps to the empty list, mirroring
the chained dict.get calls with empty defaults. -/
def FINDING_TO_CONTROL_MAP (rule_id fw_id : String) : List String :=
  if rule_id == "MFA-001" then
    if fw_id == "cis" then ["1.1.2"]
    else if fw_id == "nist" then ["IA-2", "IA-2(1)", "IA-2(2)"]
    else if fw_id == "soc2" then ["CC6.1"]
    else if fw_id == "iso27001" then ["A.9.4.2"]
    else []
  else if rule_id == "MFA-002" then
    if fw_id == "cis" then ["1.1.1"]
    else if fw_id == "nist" then ["IA-2", "IA-2(1)"]
    else if fw_id == "soc2" then ["CC6.1"]
    else if fw_id == "iso27001" then ["A.9.4.2"]
    else []
  else if rule_id == "PRIV-001" then
    if fw_id == "cis" then ["1.1.3", "1.1.4"]
    else if fw_id == "nist" then ["AC-6", "AC-6(1)", "AC-6(5)"]
    else if fw_id == "soc2" then ["CC6.3"]
    else if fw_id == "iso27001" then ["A.9.2.3"]
    else []
  else if rule_id == "RISK-001" then
    if fw_id == "cis" then ["1.2.6"]
    else if fw_id == "nist" then ["IA-5", "SI-4"]
    else if fw_id == "soc2" then ["CC6.1", "CC7.2"]
    else if fw_id == "iso27001" then ["A.9.4.3"]
    else []
  else if rule_id == "DEV-001" then
    if fw_id == "cis" then ["3.1", "3.2"]
    else if fw_id == "nist" then ["CM-2", "CM-6"]
    else if fw_id == "soc2" then ["CC6.6", "CC6.7"]
    else if fw_id == "iso27001" then ["A.8.1.1", "A.12.6.1"]
    else []
  else if rule_id == "BKP-001" then
    if fw_id == "cis" then ["5.1.4"]
    else if fw_id == "nist" then ["CP-9", "CP-10"]
    else if fw_id == "soc2" then ["A1.2"]
    else if fw_id == "iso27001" then ["A.12.3.1"]
    else []
  else if rule_id == "BKP-002" then
    if fw_id == "cis" then ["5.1.4"]
    else if fw_id == "nist" then ["CP-9"]
    else if fw_id == "soc2" then ["A1.2"]
    else if fw_id == "iso27001" then ["A.12.3.1"]
    else []
  else if rule_id == "THR-001" then
    if fw_id == "cis" then ["2.1.15"]
    else if fw_id == "nist" then ["IR-4", "IR-5", "IR-6"]
    else if fw_id == "soc2" then ["CC7.3", "CC7.4"]
    else if fw_id == "iso27001" then ["A.16.1.4", "A.16.1.5"]
    else []
  else []

/-- The two-token rule prefix of a finding id: parts 0 and 1 of the split on
the dash when a dash occurs, else the empty string. -/
def finding_rule_id (id : String) : String :=
  match strSplitOn '-' id with
  | a :: b :: _ :: _ => a ++ "-" ++ b
  | [a, b] => a ++ "-" ++ b
  | _ => ""

/-- The finding id with its last dash-separated token removed, mirroring
id.rsplit with one split; an id without a dash is returned whole. -/
def rsplit_stem (id : String) : String :=
  let parts := strSplitOn '-' id
  if parts.length ≤ 1 then id else joinSep "-" parts.dropLast

/-- Control ids a single finding marks as failed for one framework: the
static table entry for its rule id, followed by the explicit
framework_controls tags that pass the prefix filter, each reduced to its
last space-separated token.  The source appends the explicit tags to the
looked-up list; the set of failed controls per call is unchanged by the
aliasing of that list into the class-level table. -/
def controls_for_finding (fw_id : String) (f : Finding) : List String :=
  FINDING_TO_CONTROL_MAP (finding_rule_id f.id) fw_id
    ++ (f.framework_controls.filter (fun ctrl =>
          strStartsWith ctrl (strUpper fw_id)
          || !(["CIS", "NIST", "SOC2", "ISO"].any (fun p => strStartsWith ctrl p)))).map
        (fun ctrl => (strSplitOn ' ' ctrl).getLastD "")

/-- Every (control id, finding) pair recorded by the mapping loop, in finding
iteration order. -/
def control_finding_pairs (fw_id : String) (findings : List Finding) : List (String × Finding) :=
  findings.flatMap (fun f => (controls_for_finding fw_id f).map (fun cid => (cid, f)))

/-- The distinct control ids marked failed, in first-insertion order (the
source keeps them in an unordered set; only membership and cardinality are
observable in the scores and counters). -/
def failed_control_ids (fw_id : String) (findings : List Finding) : List String :=
  dedupFirst ((control_finding_pairs fw_id findings).map Prod.fst)

/-- Number of findings with severity critical. -/
def critical_findings_count (findings : List Finding) : ℕ :=
  (findings.filter (fun f => f.severity == "critical")).length

/-- The aggregate control counters of a ComplianceResult.  The passed counter
is computed as total minus the failed-set size and is therefore an integer
that can go negative. -/
structure ControlsCount where
  total : ℕ
  passed : ℤ
  failed : ℕ

/-- One row of the per-control pass and fail table. -/
structure ControlStatus where
  id : String
  name : String
  status : String
  findings : List (String × String × String)

/-- The framework identification block of a ComplianceResult. -/
structure FrameworkIdent where
  id : String
  name : String
  version : String

/-- The ComplianceResult record returned by map_to_framework. -/
structure ComplianceResult where
  framework : FrameworkIdent
  score : ℚ
  controls : ControlsCount
  failed_controls : List String
  control_status : List ControlStatus
  findings_mapped : ℕ

/-- Embeds ComplianceMapper.map_to_framework.  The catalog document stands in
for self.framework_data.get(fw_id, empty dict); loading it from disk is
outside the embedding.  The raw_data argument is carried exactly as in the
source, which never reads it. -/
def map_to_framework (fw_data : FrameworkData) (fw_id : String)
    (findings : List Finding) (raw_data : RawSnapshot) : ComplianceResult :=
  let all_controls := extract_all_controls fw_data
  let total_controls := all_controls.length
  let pairs := control_finding_pairs fw_id findings
  let failed_controls := failed_control_ids fw_id findings
  let passed_controls : ℤ := (total_controls : ℤ) - failed_controls.length
  let base : ℚ := if 0 < total_controls then (passed_controls : ℚ) / total_controls * 100 else 0
  let penalty : ℚ := min 15 ((critical_findings_count findings : ℚ) * 5)
  let score := max 0 (base - penalty)
  let fw_info := fw_data.framework.getD .empty
  { framework := ⟨fw_id, fw_info.name.getD fw_id, fw_info.version.getD ""⟩
    score := round1 score
    controls := ⟨total_controls, passed_controls, failed_controls.length⟩
    failed_controls := failed_controls
    control_status := all_controls.map (fun c =>
      let cid := c.id.getD ""
      if failed_controls.contains cid then
        ⟨cid, c.name.getD "", "fail",
          (pairs.filter (fun p => p.1 == cid)).map (fun p => (p.2.id, p.2.title, p.2.severity))⟩
      else ⟨cid, c.name.getD "", "pass", []⟩)
    findings_mapped := (findings.filter (fun f =>
      !(FINDING_TO_CONTROL_MAP (rsplit_stem f.id) fw_id).isEmpty)).length }

/-! ## engine.py finding generation -/

/-- The fixed severity rank used for the presentation sort, with the source
default of 4 for an unknown severity and rank 3 for a missing one (the
missing-key default is the string low). -/
def severity_rank (s : String) : ℕ :=
  if s == "critical" then 0
  else if s == "high" then 1
  else if s == "medium" then 2
  else if s == "low" then 3
  else if s == "informational" then 4
  else 4

/-- Rule one of _generate_findings: administrator MFA coverage below 100
yields a critical identity finding. -/
def admin_mfa_findings (aid8 : String) (identity_data : IdentityData) : List Finding :=
  let mfa := identity_data.mfa_coverage.getD .empty
  if mfa.admin_coverage_percent.getD 100 < 100 then
    [{ id := "MFA-001-" ++ aid8
       title := "Administrators Without MFA"
       severity := "critical"
       category := "identity"
       framework_controls := ["CIS 1.1.2", "NIST IA-2", "SOC2 CC6.1"]
       recommendation := "Enable MFA for all administrator accounts immediately" }]
  else []

/-- Rule two of _generate_findings: all-user MFA coverage below 95 yields an
identity finding, critical below 80 and high otherwise. -/
def user_mfa_findings (aid8 : String) (identity_data : IdentityData) : List Finding :=
  let mfa := identity_data.mfa_coverage.getD .empty
  if mfa.user_coverage_percent.getD 100 < 95 then
    [{ id := "MFA-002-" ++ aid8
       title := "Users Without MFA"
       severity := if mfa.user_coverage_percent.getD 100 < 80 then "critical" else "high"
       category := "identity"
       framework_controls := ["CIS 1.1.1", "NIST IA-2", "SOC2 CC6.1"]
       recommendation := "Enable Security Defaults or Conditional Access policies requiring MFA" }]
  else []

/-- Rule three of _generate_findings: more than five global administrators
yields a high identity finding. -/
def priv_findings (aid8 : String) (identity_data : IdentityData) : List Finding :=
  let priv := identity_data.privileged_accounts.getD .empty
  if priv.global_admin_count.getD 0 > 5 then
    [{ id := "PRIV-001-" ++ aid8
       title := "Excessive Global Administrators"
       severity := "high"
       category := "identity"
       framework_controls := ["CIS 1.1.3", "NIST AC-6", "SOC2 CC6.3"]
       recommendation := "Reduce Global Admin count and use PIM for just-in-time access" }]
  else []

/-- Rule four of _generate_findings: any high-risk user yields a critical
identity finding. -/
def risky_findings (aid8 : String) (identity_data : IdentityData) : List Finding :=
  let risky := identity_data.risky_users.getD .empty
  if risky.high_risk_count.getD 0 > 0 then
    [{ id := "RISK-001-" ++ aid8
       title := "High-Risk Users Detected"
       severity := "critical"
       category := "identity"
       framework_controls := ["NIST IA-5", "SOC2 CC6.1"]
       recommendation := "Investigate and remediate high-risk user accounts immediately" }]
  else []

/-- Rule five of _generate_findings: device compliance below 90 yields a
devices finding, critical below 70 and high otherwise. -/
def device_findings (aid8 : String) (device_data : DeviceData) : List Finding :=
  let compliance := device_data.compliance.getD .empty
  if compliance.compliance_percent.getD 100 < 90 then
    [{ id := "DEV-001-" ++ aid8
       title := "Non-Compliant Devices"
       severity := if compliance.compliance_percent.getD 100 < 70 then "critical" else "high"
       category := "devices"
       framework_controls := ["CIS 3.1", "NIST CM-2", "SOC2 CC6.6"]
       recommendation := "Review and remediate non-compliant devices" }]
  else []

/-- Rules six and seven of _generate_findings: unconfigured backup yields a
critical backup finding, else coverage below 90 yields a high one. -/
def backup_findings (aid8 : String) (backup_data : BackupData) : List Finding :=
  let health := backup_data.health.getD .empty
  if health.status == some "not_configured" then
    [{ id := "BKP-001-" ++ aid8
       title := "Azure Backup Not Configured"
       severity := "critical"
       category := "backup"
       framework_controls := ["NIST CP-9", "SOC2 A1.2"]
       recommendation := "Implement Azure Backup for critical systems" }]
  else if health.protected_percent.getD 100 < 90 then
    [{ id := "BKP-002-" ++ aid8
       title := "Incomplete Backup Coverage"
       severity := "high"
       category := "backup"
       framework_controls := ["NIST CP-9", "SOC2 A1.2"]
       recommendation := "Extend backup coverage to all critical systems" }]
  else []

/-- Rule eight of _generate_findings: any critical active alert yields a
critical threats finding. -/
def threat_findings (aid8 : String) (threat_data : ThreatData) : List Finding :=
  let summary := threat_data.summary.getD .empty
  if summary.critical_count.getD 0 > 0 then
    [{ id := "THR-001-" ++ aid8
       title := "Critical Security Alerts"
       severity := "critical"
       category := "threats"
       framework_controls := ["NIST IR-4", "SOC2 CC7.3"]
       recommendation := "Investigate and respond to critical alerts immediately" }]
  else []

/-- The findings list of AssessmentEngine._generate_findings before the
final presentation sort: each rule contributes its singleton or empty list
in source order. -/
def generate_findings_unsorted (aid8 : String) (raw_data : RawSnapshot) : List Finding :=
  admin_mfa_findings aid8 (raw_data.identity.payload .empty)
    ++ user_mfa_findings aid8 (raw_data.identity.payload .empty)
    ++ priv_findings aid8 (raw_data.identity.payload .empty)
    ++ risky_findings aid8 (raw_data.identity.payload .empty)
    ++ device_findings aid8 (raw_data.devices.payload .empty)
    ++ backup_findings aid8 (raw_data.backup.payload .empty)
    ++ threat_findings aid8 (raw_data.threats.payload .empty)

/-- Embeds AssessmentEngine._generate_findings, parameterized by the first
eight characters of the assessment id that the source interpolates into each
finding id.  The rule results are concatenated in source order and sorted
by severity rank with a stable sort, as list.sort does. -/
def generate_findings (aid8 : String) (raw_data : RawSnapshot) : List Finding :=
  (generate_findings_unsorted aid8 raw_data).insertionSort
    (fun a b => severity_rank a.severity ≤ severity_rank b.severity)

/-! ## comparison.py finding diff -/

/-- Embeds finding_signature from ComparisonEngine._compare_findings: the
cross-assessment identity of a finding is the pair of title and category,
rendered with a pipe separator. -/
def finding_signature (f : Finding) : String := f.title ++ "|" ++ f.category

/-- The signature key list of a findings list, mirroring the keys of the
Python signature dict: one entry per distinct signature, in first-occurrence
order. -/
def sig_keys (findings : List Finding) : List String :=
  dedupFirst (findings.map finding_signature)

/-- The value the signature dict holds for a key: the last finding in the
list with that signature (later insertions overwrite earlier ones). -/
def sig_lookup (findings : List Finding) (s : String) : Finding :=
  (findings.filter (fun f => finding_signature f == s)).getLastD {}

/-- The summary dict a resolved, new or persistent entry carries: title,
severity and category, plus the recommendation for new findings only and
the estimated days open for persistent findings only. -/
structure FindingBrief where
  title : String
  severity : String
  category : String
  recommendation : Option String
  days_open : Option ℤ

/-- The per-severity histogram of count_by_severity.  The source counter dict
has exactly the keys critical, high, medium and low; any other severity
value is left uncounted. -/
structure SeverityCounts where
  critical : ℕ
  high : ℕ
  medium : ℕ
  low : ℕ

/-- Embeds count_by_severity from ComparisonEngine._compare_findings. -/
def count_by_severity (findings : List FindingBrief) : SeverityCounts where
  critical := findings.countP (fun f => f.severity == "critical")
  high := findings.countP (fun f => f.severity == "high")
  medium := findings.countP (fun f => f.severity == "medium")
  low := findings.countP (fun f => f.severity == "low")

/-- The summary block of the findings comparison. -/
structure FindingsSummary where
  resolved_count : ℕ
  new_count : ℕ
  persistent_count : ℕ
  net_change : ℤ

/-- One partition block of the findings comparison. -/
structure FindingsBucket where
  count : ℕ
  by_severity : SeverityCounts
  findings : List FindingBrief

/-- The findings_comparison record of a ComparisonResult. -/
structure FindingsComparison where
  summary : FindingsSummary
  resolved : FindingsBucket
  new_findings : FindingsBucket
  persistent : FindingsBucket

/-- Embeds ComparisonEngine._compare_findings, parameterized by the
days-between estimate that the source derives from the two manifest dates
and attaches to persistent findings as days_open. -/
def compare_findings (current_findings previous_findings : List Finding)
    (days_between : ℤ) : FindingsComparison :=
  let current_sigs := sig_keys current_findings
  let previous_sigs := sig_keys previous_findings
  let resolved := (previous_sigs.filter (fun s => !current_sigs.contains s)).map (fun s =>
    let f := sig_lookup previous_findings s
    ({ title := f.title, severity := f.severity, category := f.category
       recommendation := none, days_open := none } : FindingBrief))
  let new_findings := (current_sigs.filter (fun s => !previous_sigs.contains s)).map (fun s =>
    let f := sig_lookup current_findings s
    ({ title := f.title, severity := f.severity, category := f.category
       recommendation := some f.recommendation, days_open := none } : FindingBrief))
  let persistent := (current_sigs.filter (fun s => previous_sigs.contains s)).map (fun s =>
    let f := sig_lookup current_findings s
    ({ title := f.title, severity := f.severity, category := f.category
       recommendation := none, days_open := some days_between } : FindingBrief))
  { summary :=
      { resolved_count := resolved.length
        new_count := new_findings.length
        persistent_count := persistent.length
        net_change := (resolved.length : ℤ) - new_findings.length }
    resolved := ⟨resolved.length, count_by_severity resolved, resolved⟩
    new_findings := ⟨new_findings.length, count_by_severity new_findings, new_findings⟩
    persistent := ⟨persistent.length, count_by_severity persistent, persistent⟩ }

/-! ## run_assessment.py control flow

The CLI pipeline is modelled as a trace of the artifacts it writes into the
assessment output directory, together with the error that aborted it, if
any.  Writes that happened before an uncaught exception persist, exactly as
files already written to disk persist when the Python process exits. -/

/-- One artifact the pipeline writes into the assessment directory. -/
inductive Artifact where
  | raw_domain (domain : String)
  | findings
  | scores
  | compliance (framework : String)
  | comparison
  | reports
  | manifest
deriving DecidableEq

/-- The fixed collection order of the five domains in collect_all. -/
def collection_domains : List String :=
  ["secure_score", "identity", "devices", "threats", "backup"]

/-- A previous-assessment directory as the comparison step sees it: all that
decides the fatal path is whether manifest.json exists there. -/
structure PreviousDir where
  has_manifest : Bool
deriving DecidableEq

/-- The CLI options that influence the pipeline control flow. -/
structure CliArgs where
  frameworks : List String := []
  compare_with : Option PreviousDir := none
  skip_pdf : Bool := false
  keep_raw_data : Bool := false
  dry_run : Bool := false

/-- The uncaught errors the embedded pipeline distinguishes. -/
inductive RunError where
  | missing_previous_manifest
deriving DecidableEq

/-- Tail of run_assessment after a comparison step that did not raise:
report generation unless skipped, raw-data cleanup unless kept, then the
manifest write. -/
def finish_run (written : List Artifact) (args : CliArgs) : List Artifact × Option RunError :=
  let w1 := if args.skip_pdf then written else written ++ [Artifact.reports]
  let w2 := if args.keep_raw_data then w1
    else w1.filter (fun a => match a with | .raw_domain _ => false | _ => true)
  (w2 ++ [Artifact.manifest], none)

/-- Embeds the run_assessment coroutine of run_assessment.py as an artifact
trace: collection writes one raw file per domain, analysis writes the
findings, scores and per-framework compliance files, then the optional
comparison step runs, and only afterwards reports are generated, raw data
is cleaned up and manifest.json is written.  A missing previous manifest
raises out of the ComparisonEngine constructor, so every step after the
comparison is skipped while the files already on disk remain. -/
def run_assessment (args : CliArgs) : List Artifact × Option RunError :=
  if args.dry_run then ([], none)
  else
    let after_collect := collection_domains.map Artifact.raw_domain
    let after_analyze := after_collect ++ [Artifact.findings, Artifact.scores]
      ++ args.frameworks.map Artifact.compliance
    match args.compare_with with
    | some prev =>
      if prev.has_manifest then finish_run (after_analyze ++ [Artifact.comparison]) args
      else (after_analyze, some .missing_previous_manifest)
    | none => finish_run after_analyze args

/-- The process exit code of main in run_assessment.py: 1 when an uncaught
exception reaches the top-level handler, 0 otherwise. -/
def cli_exit_code (args : CliArgs) : ℕ :=
  if (run_assessment args).2.isSome then 1 else 0

/-! ## Concrete instances used by counterexamples and witnesses -/

/-- A critical administrator-MFA finding as the generator emits it, with the
assessment-scoped id suffix. -/
def cex_finding_critical : Finding :=
  { id := "MFA-001-deadbeef", title := "Administrators Without MFA"
    severity := "critical", category := "identity" }

/-- The same finding downgraded to severity high, to isolate the rounding
behaviour from the critical-finding penalty. -/
def cex_finding_high : Finding :=
  { id := "MFA-001-deadbeef", title := "Administrators Without MFA"
    severity := "high", category := "identity" }

/-- A user-MFA finding with severity high, as emitted between the 80 and 95
percent thresholds. -/
def cex_finding_user_high : Finding :=
  { id := "MFA-002-deadbeef", title := "Users Without MFA"
    severity := "high", category := "identity" }

/-- A catalog document with one section of three controls. -/
def fw_three_controls : FrameworkData :=
  { framework := none
    sections := [⟨some "S",
      [⟨some "1", some "c1"⟩, ⟨some "2", some "c2"⟩, ⟨some "3", some "c3"⟩]⟩]
    control_families := []
    trust_service_categories := []
    control_categories := [] }

/-- A catalog document with one section of ten controls, matching the worked
scoring example of ten controls with two failed. -/
def fw_ten_controls : FrameworkData :=
  { framework := none
    sections := [⟨some "S",
      [⟨some "1", some "c1"⟩, ⟨some "2", some "c2"⟩, ⟨some "3", some "c3"⟩,
       ⟨some "4", some "c4"⟩, ⟨some "5", some "c5"⟩, ⟨some "6", some "c6"⟩,
       ⟨some "7", some "c7"⟩, ⟨some "8", some "c8"⟩, ⟨some "9", some "c9"⟩,
       ⟨some "10", some "c10"⟩]⟩]
    control_families := []
    trust_service_categories := []
    control_categories := [] }

/-- Two findings that fail exactly two distinct cis controls with exactly
one critical among them: the worked ten-control example. -/
def example_findings_75 : List Finding := [cex_finding_critical, cex_finding_user_high]

/-- A snapshot whose identity domain reports 82 percent all-user MFA
coverage and nothing else. -/
def snapshot_user_mfa_82 : RawSnapshot :=
  { identity := .collected { mfa_coverage := some { user_coverage_percent := some 82 } } }

/-- A snapshot of a run with total collection failure: every domain is
absent or holds the orchestrator error sentinel. -/
def snapshot_all_errors : RawSnapshot :=
  { secure_score := .errorSentinel "timeout"
    identity := .errorSentinel "timeout"
    devices := .absent
    threats := .errorSentinel "denied"
    backup := .absent }

/-- CLI arguments requesting a comparison against a directory that lacks
manifest.json. -/
def cex_missing_prev_args : CliArgs :=
  { frameworks := ["cis"], compare_with := some ⟨false⟩ }

/-- A second such configuration, with two frameworks and the raw data kept,
for the witness instance. -/
def witness_missing_prev_args : CliArgs :=
  { frameworks := ["cis", "nist"], compare_with := some ⟨false⟩
    skip_pdf := true, keep_raw_data := true }

/-! ## Shared lemmas -/

/-- Clamping into the interval from 0 to 100 lands in that interval. -/
theorem clip01 (x : ℚ) : 0 ≤ min 100 (max 0 x) ∧ min 100 (max 0 x) ≤ 100 :=
  ⟨le_min (by norm_num) (le_max_left 0 x), min_le_left _ _⟩

/-- Reading an absent or error-sentinel domain with a default yields the
default, exactly as dict.get does on a dict without the metric keys. -/
theorem payload_degraded {α : Type} {d : DomainEntry α} (empty : α)
    (h : d.isDegraded) : d.payload empty = empty := by
  cases d with
  | absent => rfl
  | errorSentinel m => rfl
  | collected x => exact absurd h (by simp [DomainEntry.isDegraded])

/-- Reading an absent domain with a default yields the default. -/
theorem payload_absent {α : Type} (empty : α) :
    (DomainEntry.absent : DomainEntry α).payload empty = empty := rfl

/-! ## Claim theorems -/

/-- C4: calculate_overall_score equals the clipped weighted sum with secure
score at weight 0.30 and the five categories at their fixed weights, any
missing category contributing the neutral default 50; the result is always
between 0 and 100; and the worked example evaluates to 74.25. -/
theorem overall_score_spec :
    (∀ (ss : ℚ) (cs : CategoryScoresIn),
      calculate_overall_score ss cs =
        min 100 (max 0
          (0.30 * ss + 0.25 * cs.identity.getD 50 + 0.15 * cs.data_protection.getD 50
            + 0.15 * cs.backup.getD 50 + 0.10 * cs.devices.getD 50
            + 0.05 * cs.network.getD 50))) ∧
    (∀ (ss : ℚ) (cs : CategoryScoresIn),
      0 ≤ calculate_overall_score ss cs ∧ calculate_overall_score ss cs ≤ 100) ∧
    calculate_overall_score 70
      { identity := some 80, data_protection := some 60, backup := some 90,
        devices := some 75, network := some 65 } = 74.25 := by
  refine ⟨fun ss cs => ?_, fun ss cs => ?_, ?_⟩
  · unfold calculate_overall_score
    ring_nf
  · exact clip01 _
  · norm_num [calculate_overall_score, min_def, max_def]

/-- C6: on scores between 0 and 100, calculate_grade returns A exactly on
the closed band from 90 to 100, B on 75 up to but excluding 90, C on 60 up
to 75, D on 40 up to 60 and F on 0 up to 40: the five bands are total and
pairwise disjoint. -/
theorem calculate_grade_bands (s : ℚ) (h0 : 0 ≤ s) (h100 : s ≤ 100) :
    (calculate_grade s = "A" ↔ 90 ≤ s ∧ s ≤ 100) ∧
    (calculate_grade s = "B" ↔ 75 ≤ s ∧ s < 90) ∧
    (calculate_grade s = "C" ↔ 60 ≤ s ∧ s < 75) ∧
    (calculate_grade s = "D" ↔ 40 ≤ s ∧ s < 60) ∧
    (calculate_grade s = "F" ↔ 0 ≤ s ∧ s < 40) := by
  unfold calculate_grade
  split_ifs with h1 h2 h3 h4 <;>
    refine ⟨⟨fun hx => ?_, fun hx => ?_⟩, ⟨fun hx => ?_, fun hx => ?_⟩,
      ⟨fun hx => ?_, fun hx => ?_⟩, ⟨fun hx => ?_, fun hx => ?_⟩,
      ⟨fun hx => ?_, fun hx => ?_⟩⟩ <;>
    first
      | rfl
      | exact ⟨by linarith, by linarith⟩
      | exact absurd hx (by decide)
      | (exfalso; exact absurd hx.1 (by linarith))

/-- C6 witness: the band theorem applied at the concrete score 82 yields
grade B. -/
theorem calculate_grade_bands_witness : calculate_grade 82 = "B" :=
  ((calculate_grade_bands 82 (by norm_num) (by norm_num)).2.1).mpr
    ⟨by norm_num, by norm_num⟩

/-- C8: swapping the current and previous finding lists in the comparison
engine exchanges the resolved and new counts exactly, because both count
the signatures present in one list and missing from the other. -/
theorem compare_findings_swap_symmetry (a b : List Finding) (d1 d2 : ℤ) :
    (compare_findings a b d1).summary.resolved_count
        = (compare_findings b a d2).summary.new_count ∧
    (compare_findings a b d1).summary.new_count
        = (compare_findings b a d2).summary.resolved_count := by
  constructor <;> simp [compare_findings]

/-- The identity category score is clamped into the interval from 0 to 100
for every input. -/
theorem identity_score_in_range (d : IdentityData) :
    0 ≤ calculate_identity_score d ∧ calculate_identity_score d ≤ 100 := by
  unfold calculate_identity_score
  exact clip01 _

/-- The backup category score is 0 when unconfigured and otherwise clamped
into the interval from 0 to 100. -/
theorem backup_score_in_range (d : BackupData) :
    0 ≤ calculate_backup_score d ∧ calculate_backup_score d ≤ 100 := by
  simp only [calculate_backup_score]
  split_ifs <;> norm_num

/-- The secure-score ratio scorer stays in the interval from 0 to 100 when
its default does and every control earns a non-negative score of at most
its max score. -/
theorem score_from_controls_in_range (m : List SSControl) (dflt : ℚ)
    (hd0 : 0 ≤ dflt) (hd1 : dflt ≤ 100)
    (hc : ∀ c ∈ m, 0 ≤ c.score.getD 0 ∧ c.score.getD 0 ≤ c.max_score.getD 0) :
    0 ≤ score_from_controls m dflt ∧ score_from_controls m dflt ≤ 100 := by
  simp only [score_from_controls]
  split_ifs with hemp hmax
  · exact ⟨hd0, hd1⟩
  · exact ⟨hd0, hd1⟩
  · have hts : 0 ≤ (m.map (fun c => c.score.getD 0)).sum := by
      apply List.sum_nonneg
      intro x hx
      obtain ⟨c, hcm, rfl⟩ := List.mem_map.mp hx
      exact (hc c hcm).1
    have hle : (m.map (fun c => c.score.getD 0)).sum
        ≤ (m.map (fun c => c.max_score.getD 0)).sum :=
      List.sum_le_sum (fun c hcm => (hc c hcm).2)
    have htm : 0 < (m.map (fun c => c.max_score.getD 0)).sum :=
      lt_of_le_of_ne (le_trans hts hle) (Ne.symm hmax)
    constructor
    · exact mul_nonneg (div_nonneg hts (le_of_lt htm)) (by norm_num)
    · calc (m.map (fun c => c.score.getD 0)).sum
            / (m.map (fun c => c.max_score.getD 0)).sum * 100
          ≤ 1 * 100 := by
            apply mul_le_mul_of_nonneg_right _ (by norm_num)
            exact (div_le_one htm).mpr hle
      _ = 100 := one_mul 100

/-- C5 amended: the identity and backup category scores lie between 0 and
100 for every snapshot; the devices, data-protection and network scores lie
between 0 and 100 whenever the raw metrics they pass through are in range,
namely a devices compliance_percent between 0 and 100 when present, and
secure-score controls each earning between 0 and their max score.  The
devices score is an unclamped passthrough, so the in-range hypothesis on it
cannot be dropped. -/
theorem category_scores_in_range (raw : RawSnapshot)
    (hdev : ∀ x : ℚ,
      ((raw.devices.payload .empty).compliance.getD .empty).compliance_percent = some x →
        0 ≤ x ∧ x ≤ 100)
    (hss : ∀ c ∈ (raw.secure_score.payload .empty).controls.getD [],
      0 ≤ c.score.getD 0 ∧ c.score.getD 0 ≤ c.max_score.getD 0) :
    (0 ≤ (calculate_category_scores raw).identity
        ∧ (calculate_category_scores raw).identity ≤ 100) ∧
    (0 ≤ (calculate_category_scores raw).data_protection
        ∧ (calculate_category_scores raw).data_protection ≤ 100) ∧
    (0 ≤ (calculate_category_scores raw).backup
        ∧ (calculate_category_scores raw).backup ≤ 100) ∧
    (0 ≤ (calculate_category_scores raw).devices
        ∧ (calculate_category_scores raw).devices ≤ 100) ∧
    (0 ≤ (calculate_category_scores raw).network
        ∧ (calculate_category_scores raw).network ≤ 100) := by
  refine ⟨identity_score_in_range _, ?_, backup_score_in_range _, ?_, ?_⟩
  · apply score_from_controls_in_range _ _ (by norm_num) (by norm_num)
    intro c hcm
    exact hss c (List.mem_of_mem_filter hcm)
  · show 0 ≤ calculate_device_score (raw.devices.payload .empty)
        ∧ calculate_device_score (raw.devices.payload .empty) ≤ 100
    unfold calculate_device_score
    cases hx : ((raw.devices.payload DeviceData.empty).compliance.getD DeviceCompliance.empty).compliance_percent with
    | none => norm_num
    | some x => simpa using hdev x hx
  · apply score_from_controls_in_range _ _ (by norm_num) (by norm_num)
    intro c hcm
    exact hss c (List.mem_of_mem_filter hcm)

/-- A snapshot whose devices domain reports a compliance percentage above
100, as an out-of-range collector value would. -/
def snapshot_overrange_device : RawSnapshot :=
  { devices := .collected
      { compliance := some { compliance_percent := some 150, non_compliant_count := none }
        non_compliant_devices := [] } }

/-- C5 counterexample: on a snapshot with devices compliance_percent 150,
the devices category score is 150, outside the claimed interval, because
_calculate_device_score passes the raw percentage through unclamped. -/
theorem category_scores_out_of_range_cex :
    100 < (calculate_category_scores snapshot_overrange_device).devices := by
  norm_num [calculate_category_scores, calculate_device_score, snapshot_overrange_device,
    DomainEntry.payload]

/-- C5 witness: the in-range theorem applied to the all-absent snapshot,
whose hypotheses hold vacuously. -/
theorem category_scores_in_range_witness :
    (0 ≤ (calculate_category_scores RawSnapshot.empty).identity
        ∧ (calculate_category_scores RawSnapshot.empty).identity ≤ 100) ∧
    (0 ≤ (calculate_category_scores RawSnapshot.empty).data_protection
        ∧ (calculate_category_scores RawSnapshot.empty).data_protection ≤ 100) ∧
    (0 ≤ (calculate_category_scores RawSnapshot.empty).backup
        ∧ (calculate_category_scores RawSnapshot.empty).backup ≤ 100) ∧
    (0 ≤ (calculate_category_scores RawSnapshot.empty).devices
        ∧ (calculate_category_scores RawSnapshot.empty).devices ≤ 100) ∧
    (0 ≤ (calculate_category_scores RawSnapshot.empty).network
        ∧ (calculate_category_scores RawSnapshot.empty).network ≤ 100) :=
  category_scores_in_range RawSnapshot.empty
    (by intro x hx; exact Option.noConfusion hx)
    (by intro c hc; exact absurd hc (List.not_mem_nil c))

/-- C7: the scoring and mapping stages read every raw-snapshot domain with
defaults, so an absent domain and an error-sentinel domain are
indistinguishable from each other: replacing any degraded domain by an
absent one leaves calculate_category_scores unchanged, a fully-missing
category mapping feeds the neutral default 50 into
calculate_overall_score, and map_to_framework does not depend on the raw
snapshot at all.  All three embedded functions are total, so no input,
degraded or not, can raise. -/
theorem scoring_tolerates_degraded_domains (raw : RawSnapshot) (ss : ℚ)
    (fw_data : FrameworkData) (fw_id : String) (findings : List Finding)
    (other : RawSnapshot) :
    (raw.identity.isDegraded →
      calculate_category_scores raw = calculate_category_scores { raw with identity := .absent }) ∧
    (raw.secure_score.isDegraded →
      calculate_category_scores raw = calculate_category_scores { raw with secure_score := .absent }) ∧
    (raw.devices.isDegraded →
      calculate_category_scores raw = calculate_category_scores { raw with devices := .absent }) ∧
    (raw.backup.isDegraded →
      calculate_category_scores raw = calculate_category_scores { raw with backup := .absent }) ∧
    (raw.threats.isDegraded →
      calculate_category_scores raw = calculate_category_scores { raw with threats := .absent }) ∧
    calculate_overall_score ss {} =
      min 100 (max 0 (ss * 0.30 + 50 * 0.25 + 50 * 0.15 + 50 * 0.15 + 50 * 0.10 + 50 * 0.05)) ∧
    map_to_framework fw_data fw_id findings raw = map_to_framework fw_data fw_id findings other := by
  refine ⟨fun h => ?_, fun h => ?_, fun h => ?_, fun h => ?_, fun h => ?_, rfl, rfl⟩ <;>
    simp [calculate_category_scores, payload_degraded _ h, payload_absent]

/-- A findings list in which no finding maps to any control for the given
framework produces no control-finding pairs. -/
theorem control_finding_pairs_nil (fw_id : String) (findings : List Finding)
    (h : ∀ f ∈ findings, controls_for_finding fw_id f = []) :
    control_finding_pairs fw_id findings = [] := by
  induction findings with
  | nil => rfl
  | cons f rest ih =>
    have hf := h f (by simp)
    have hr := ih (fun g hg => h g (by simp [hg]))
    simp [control_finding_pairs] at hr ⊢
    exact ⟨by simp [hf], hr⟩

/-- C2 amended: on a framework whose flattened catalog is empty,
map_to_framework always returns score 0 and total 0 and cannot raise, but
the failed counter equals the number of distinct control ids the findings
map to, which can be positive, and the passed counter is its negation;
all three counters are 0 exactly when no finding maps to any control id
for this framework. -/
theorem map_to_framework_zero_controls (fw_data : FrameworkData) (fw_id : String)
    (findings : List Finding) (raw : RawSnapshot)
    (h : extract_all_controls fw_data = []) :
    (map_to_framework fw_data fw_id findings raw).score = 0 ∧
    (map_to_framework fw_data fw_id findings raw).controls.total = 0 ∧
    (map_to_framework fw_data fw_id findings raw).controls.failed
        = (failed_control_ids fw_id findings).length ∧
    (map_to_framework fw_data fw_id findings raw).controls.passed
        = -(((map_to_framework fw_data fw_id findings raw).controls.failed : ℤ)) ∧
    ((∀ f ∈ findings, controls_for_finding fw_id f = []) →
      (map_to_framework fw_data fw_id findings raw).controls.passed = 0 ∧
      (map_to_framework fw_data fw_id findings raw).controls.failed = 0) := by
  have hpen : (0:ℚ) ≤ min 15 ((critical_findings_count findings : ℚ) * 5) :=
    le_min (by norm_num) (by positivity)
  refine ⟨?_, ?_, ?_, ?_, ?_⟩
  · simp only [map_to_framework, h]
    norm_num
    norm_num [round1, roundHalfEven]
  · simp [map_to_framework, h]
  · simp [map_to_framework]
  · simp [map_to_framework, h]
  · intro hnone
    have hp : control_finding_pairs fw_id findings = [] :=
      control_finding_pairs_nil fw_id findings hnone
    simp [map_to_framework, h, failed_control_ids, hp, dedupFirst, dedupFirstAux]

/-- C2 counterexample: a zero-control catalog together with one finding that
maps to a cis control yields failed 1 and passed minus 1, not the claimed
all-zero counters. -/
theorem map_zero_controls_negative_passed_cex :
    (map_to_framework .empty "cis" [cex_finding_critical] RawSnapshot.empty).controls.passed = -1 ∧
    (map_to_framework .empty "cis" [cex_finding_critical] RawSnapshot.empty).controls.failed = 1 := by
  constructor <;> decide

/-- C2 witness: the zero-catalog theorem applied to the empty findings list,
where all three counters are 0 and the score is 0. -/
theorem map_to_framework_zero_controls_witness :
    (map_to_framework .empty "cis" [] RawSnapshot.empty).score = 0 ∧
    (map_to_framework .empty "cis" [] RawSnapshot.empty).controls.total = 0 ∧
    (map_to_framework .empty "cis" [] RawSnapshot.empty).controls.passed = 0 ∧
    (map_to_framework .empty "cis" [] RawSnapshot.empty).controls.failed = 0 := by
  have h := map_to_framework_zero_controls .empty "cis" [] RawSnapshot.empty rfl
  have hz := h.2.2.2.2 (fun f hf => absurd hf (List.not_mem_nil f))
  exact ⟨h.1, h.2.1, hz.1, hz.2⟩

/-- C3 amended: on a framework with at least one control, the returned score
is the claimed penalty formula rounded to one decimal place, Python round
semantics: passed over total times 100, minus the capped critical penalty,
floored at 0, then rounded half to even at one decimal. -/
theorem map_to_framework_score_formula (fw_data : FrameworkData) (fw_id : String)
    (findings : List Finding) (raw : RawSnapshot)
    (h : 0 < (extract_all_controls fw_data).length) :
    (map_to_framework fw_data fw_id findings raw).score =
      round1 (max 0
        ((((extract_all_controls fw_data).length : ℚ)
              - ((failed_control_ids fw_id findings).length : ℚ))
            / ((extract_all_controls fw_data).length : ℚ) * 100
          - min 15 (5 * (critical_findings_count findings : ℚ)))) := by
  simp only [map_to_framework]
  rw [if_pos h]
  push_cast
  ring_nf

/-- C3 counterexample: with three controls, one failed and no critical
finding, the returned score is 66.7 while the claimed exact formula gives
200 over 3: the claim omits the one-decimal rounding. -/
theorem map_score_rounding_cex :
    (map_to_framework fw_three_controls "cis" [cex_finding_high] RawSnapshot.empty).score = 667/10 ∧
    (map_to_framework fw_three_controls "cis" [cex_finding_high] RawSnapshot.empty).score ≠
      max 0
        ((((extract_all_controls fw_three_controls).length : ℚ)
              - ((failed_control_ids "cis" [cex_finding_high]).length : ℚ))
            / ((extract_all_controls fw_three_controls).length : ℚ) * 100
          - min 15 (5 * (critical_findings_count [cex_finding_high] : ℚ))) := by
  have htot : (extract_all_controls fw_three_controls).length = 3 := by decide
  have hfail : (failed_control_ids "cis" [cex_finding_high]).length = 1 := by decide
  have hc : critical_findings_count [cex_finding_high] = 0 := by decide
  constructor
  · norm_num [map_to_framework, round1, roundHalfEven, htot, hfail, hc]
  · rw [htot, hfail, hc]
    norm_num [map_to_framework, round1, roundHalfEven, htot, hfail, hc]

/-- C3 witness: ten controls, two failed by the mapped findings, one
critical finding present, score 75: the amended formula applied at the
worked example. -/
theorem map_score_formula_witness :
    (map_to_framework fw_ten_controls "cis" example_findings_75 RawSnapshot.empty).score = 75 := by
  have h := map_to_framework_score_formula fw_ten_controls "cis" example_findings_75
    RawSnapshot.empty (by decide)
  have htot : (extract_all_controls fw_ten_controls).length = 10 := by decide
  have hfail : (failed_control_ids "cis" example_findings_75).length = 2 := by decide
  have hc : critical_findings_count example_findings_75 = 1 := by decide
  rw [h, htot, hfail, hc]
  norm_num [round1, roundHalfEven]

/-! ### Per-rule facts used by the finding-generator claims -/

/-- The admin-MFA rule never emits the user-MFA title. -/
theorem filter_users_admin (a : String) (d : IdentityData) :
    (admin_mfa_findings a d).filter (fun f => f.title == "Users Without MFA") = [] := by
  simp only [admin_mfa_findings]; split <;> rfl

/-- The privileged-accounts rule never emits the user-MFA title. -/
theorem filter_users_priv (a : String) (d : IdentityData) :
    (priv_findings a d).filter (fun f => f.title == "Users Without MFA") = [] := by
  simp only [priv_findings]; split <;> rfl

/-- The risky-users rule never emits the user-MFA title. -/
theorem filter_users_risky (a : String) (d : IdentityData) :
    (risky_findings a d).filter (fun f => f.title == "Users Without MFA") = [] := by
  simp only [risky_findings]; split <;> rfl

/-- The device-compliance rule never emits the user-MFA title. -/
theorem filter_users_device (a : String) (d : DeviceData) :
    (device_findings a d).filter (fun f => f.title == "Users Without MFA") = [] := by
  simp only [device_findings]; split <;> rfl

/-- The backup rules never emit the user-MFA title. -/
theorem filter_users_backup (a : String) (d : BackupData) :
    (backup_findings a d).filter (fun f => f.title == "Users Without MFA") = [] := by
  simp only [backup_findings]; split <;> first | rfl | (split <;> rfl)

/-- The threat rule never emits the user-MFA title. -/
theorem filter_users_threat (a : String) (d : ThreatData) :
    (threat_findings a d).filter (fun f => f.title == "Users Without MFA") = [] := by
  simp only [threat_findings]; split <;> rfl

/-- The device rule emits no identity-category finding. -/
theorem countP_identity_device (a : String) (d : DeviceData) :
    (device_findings a d).countP (fun f => f.category == "identity") = 0 := by
  simp only [device_findings]; split <;> rfl

/-- The backup rules emit no identity-category finding. -/
theorem countP_identity_backup (a : String) (d : BackupData) :
    (backup_findings a d).countP (fun f => f.category == "identity") = 0 := by
  simp only [backup_findings]; split <;> first | rfl | (split <;> rfl)

/-- The threat rule emits no identity-category finding. -/
theorem countP_identity_threat (a : String) (d : ThreatData) :
    (threat_findings a d).countP (fun f => f.category == "identity") = 0 := by
  simp only [threat_findings]; split <;> rfl

/-- The four identity rules emit no devices-category finding. -/
theorem countP_devices_identity (a : String) (d : IdentityData) :
    (admin_mfa_findings a d).countP (fun f => f.category == "devices") = 0 ∧
    (user_mfa_findings a d).countP (fun f => f.category == "devices") = 0 ∧
    (priv_findings a d).countP (fun f => f.category == "devices") = 0 ∧
    (risky_findings a d).countP (fun f => f.category == "devices") = 0 := by
  refine ⟨?_, ?_, ?_, ?_⟩
  · simp only [admin_mfa_findings]; split <;> rfl
  · simp only [user_mfa_findings]; split <;> rfl
  · simp only [priv_findings]; split <;> rfl
  · simp only [risky_findings]; split <;> rfl

/-- Neither backup rule nor the threat rule emits a devices-category
finding. -/
theorem countP_devices_other (a : String) (db : BackupData) (dt : ThreatData) :
    (backup_findings a db).countP (fun f => f.category == "devices") = 0 ∧
    (threat_findings a dt).countP (fun f => f.category == "devices") = 0 := by
  constructor
  · simp only [backup_findings]; split <;> first | rfl | (split <;> rfl)
  · simp only [threat_findings]; split <;> rfl

/-- No rule outside the backup pair emits a backup-category finding. -/
theorem countP_backup_other (a : String) (d : IdentityData) (dd : DeviceData) (dt : ThreatData) :
    (admin_mfa_findings a d).countP (fun f => f.category == "backup") = 0 ∧
    (user_mfa_findings a d).countP (fun f => f.category == "backup") = 0 ∧
    (priv_findings a d).countP (fun f => f.category == "backup") = 0 ∧
    (risky_findings a d).countP (fun f => f.category == "backup") = 0 ∧
    (device_findings a dd).countP (fun f => f.category == "backup") = 0 ∧
    (threat_findings a dt).countP (fun f => f.category == "backup") = 0 := by
  refine ⟨?_, ?_, ?_, ?_, ?_, ?_⟩
  · simp only [admin_mfa_findings]; split <;> rfl
  · simp only [user_mfa_findings]; split <;> rfl
  · simp only [priv_findings]; split <;> rfl
  · simp only [risky_findings]; split <;> rfl
  · simp only [device_findings]; split <;> rfl
  · simp only [threat_findings]; split <;> rfl

/-- No rule outside the threat rule emits a threats-category finding. -/
theorem countP_threats_other (a : String) (d : IdentityData) (dd : DeviceData) (db : BackupData) :
    (admin_mfa_findings a d).countP (fun f => f.category == "threats") = 0 ∧
    (user_mfa_findings a d).countP (fun f => f.category == "threats") = 0 ∧
    (priv_findings a d).countP (fun f => f.category == "threats") = 0 ∧
    (risky_findings a d).countP (fun f => f.category == "threats") = 0 ∧
    (device_findings a dd).countP (fun f => f.category == "threats") = 0 ∧
    (backup_findings a db).countP (fun f => f.category == "threats") = 0 := by
  refine ⟨?_, ?_, ?_, ?_, ?_, ?_⟩
  · simp only [admin_mfa_findings]; split <;> rfl
  · simp only [user_mfa_findings]; split <;> rfl
  · simp only [priv_findings]; split <;> rfl
  · simp only [risky_findings]; split <;> rfl
  · simp only [device_findings]; split <;> rfl
  · simp only [backup_findings]; split <;> first | rfl | (split <;> rfl)

/-- On the empty identity dict every identity rule is silent: the
fully-compliant defaults of 100 percent coverage and zero counts make every
predicate false. -/
theorem identity_rules_silent_on_empty (a : String) :
    admin_mfa_findings a IdentityData.empty = [] ∧
    user_mfa_findings a IdentityData.empty = [] ∧
    priv_findings a IdentityData.empty = [] ∧
    risky_findings a IdentityData.empty = [] := by
  refine ⟨?_, ?_, ?_, ?_⟩ <;>
    norm_num [admin_mfa_findings, user_mfa_findings, priv_findings, risky_findings,
      IdentityData.empty, MfaCoverage.empty, PrivilegedAccounts.empty, RiskyUsers.empty]

/-- On the empty devices, backup and threats dicts the corresponding rules
are silent. -/
theorem other_rules_silent_on_empty (a : String) :
    device_findings a DeviceData.empty = [] ∧
    backup_findings a BackupData.empty = [] ∧
    threat_findings a ThreatData.empty = [] := by
  refine ⟨?_, ?_, ?_⟩ <;>
    norm_num [device_findings, backup_findings, threat_findings,
      DeviceData.empty, DeviceCompliance.empty, BackupData.empty, BackupHealth.empty,
      ThreatData.empty, ThreatSummary.empty]

/-- C9: whenever the identity domain carries a user_coverage_percent value,
the generator emits exactly one Users Without MFA finding with severity
critical below the 80 threshold and severity high from 80 up to but
excluding 95, and emits none at 95 or above. -/
theorem user_mfa_severity_thresholds (aid8 : String) (raw : RawSnapshot)
    (d : IdentityData) (m : MfaCoverage) (u : ℚ)
    (hid : raw.identity = .collected d)
    (hm : d.mfa_coverage = some m)
    (hu : m.user_coverage_percent = some u) :
    (u < 80 →
      ((generate_findings aid8 raw).filter (fun f => f.title == "Users Without MFA")).map
        Finding.severity = ["critical"]) ∧
    (80 ≤ u → u < 95 →
      ((generate_findings aid8 raw).filter (fun f => f.title == "Users Without MFA")).map
        Finding.severity = ["high"]) ∧
    (95 ≤ u →
      ((generate_findings aid8 raw).filter (fun f => f.title == "Users Without MFA")).map
        Finding.severity = []) := by
  have hperm :
      (((generate_findings aid8 raw).filter (fun f => f.title == "Users Without MFA")).map
          Finding.severity).Perm
        (((generate_findings_unsorted aid8 raw).filter
            (fun f => f.title == "Users Without MFA")).map Finding.severity) :=
    ((List.perm_insertionSort _ _).filter _).map _
  have hchunks : (generate_findings_unsorted aid8 raw).filter
      (fun f => f.title == "Users Without MFA")
      = (user_mfa_findings aid8 d).filter (fun f => f.title == "Users Without MFA") := by
    simp only [generate_findings_unsorted, List.filter_append, hid, DomainEntry.payload,
      filter_users_admin, filter_users_priv, filter_users_risky, filter_users_device,
      filter_users_backup, filter_users_threat]
    simp
  have huser : user_mfa_findings aid8 d =
      if u < 95 then
        [{ id := "MFA-002-" ++ aid8
           title := "Users Without MFA"
           severity := if u < 80 then "critical" else "high"
           category := "identity"
           framework_controls := ["CIS 1.1.1", "NIST IA-2", "SOC2 CC6.1"]
           recommendation := "Enable Security Defaults or Conditional Access policies requiring MFA" }]
      else [] := by
    unfold user_mfa_findings
    rw [hm]
    simp [hu]
  refine ⟨fun h80 => ?_, fun h80a h95 => ?_, fun h95 => ?_⟩
  · have h95 : u < 95 := by linarith
    rw [huser, if_pos h95, if_pos h80] at hchunks
    rw [hchunks] at hperm
    simp only [List.filter_cons, List.filter_nil] at hperm
    exact List.perm_singleton.mp (by simpa using hperm)
  · rw [huser, if_pos h95, if_neg (by linarith : ¬u < 80)] at hchunks
    rw [hchunks] at hperm
    exact List.perm_singleton.mp (by simpa using hperm)
  · rw [huser, if_neg (by linarith : ¬u < 95)] at hchunks
    rw [hchunks] at hperm
    exact List.Perm.eq_nil (by simpa using hperm)

/-- C10: a degraded domain, absent or error sentinel, contributes no finding
of its category, because every rule predicate reads its metrics with
fully-compliant defaults; with all four finding domains degraded the
generator returns the empty list. -/
theorem degraded_domains_suppress_findings (aid8 : String) (raw : RawSnapshot) :
    (raw.identity.isDegraded →
      (generate_findings aid8 raw).countP (fun f => f.category == "identity") = 0) ∧
    (raw.devices.isDegraded →
      (generate_findings aid8 raw).countP (fun f => f.category == "devices") = 0) ∧
    (raw.backup.isDegraded →
      (generate_findings aid8 raw).countP (fun f => f.category == "backup") = 0) ∧
    (raw.threats.isDegraded →
      (generate_findings aid8 raw).countP (fun f => f.category == "threats") = 0) ∧
    (raw.identity.isDegraded → raw.devices.isDegraded → raw.backup.isDegraded →
      raw.threats.isDegraded → generate_findings aid8 raw = []) := by
  have hsort : ∀ p : Finding → Bool,
      (generate_findings aid8 raw).countP p = (generate_findings_unsorted aid8 raw).countP p :=
    fun p => (List.perm_insertionSort _ _).countP_eq p
  refine ⟨fun h => ?_, fun h => ?_, fun h => ?_, fun h => ?_, fun h1 h2 h3 h4 => ?_⟩
  · rw [hsort]
    simp only [generate_findings_unsorted, List.countP_append, payload_degraded _ h]
    simp [identity_rules_silent_on_empty, countP_identity_device, countP_identity_backup,
      countP_identity_threat]
  · rw [hsort]
    have hid := countP_devices_identity aid8 (raw.identity.payload .empty)
    have hoth := countP_devices_other aid8 (raw.backup.payload .empty)
      (raw.threats.payload .empty)
    simp only [generate_findings_unsorted, List.countP_append, payload_degraded _ h,
      (other_rules_silent_on_empty aid8).1, hid.1, hid.2.1, hid.2.2.1, hid.2.2.2,
      hoth.1, hoth.2, List.countP_nil]
  · rw [hsort]
    have hot := countP_backup_other aid8 (raw.identity.payload .empty)
      (raw.devices.payload .empty) (raw.threats.payload .empty)
    simp only [generate_findings_unsorted, List.countP_append, payload_degraded _ h,
      (other_rules_silent_on_empty aid8).2.1, hot.1, hot.2.1, hot.2.2.1, hot.2.2.2.1,
      hot.2.2.2.2.1, hot.2.2.2.2.2, List.countP_nil]
  · rw [hsort]
    have hot := countP_threats_other aid8 (raw.identity.payload .empty)
      (raw.devices.payload .empty) (raw.backup.payload .empty)
    simp only [generate_findings_unsorted, List.countP_append, payload_degraded _ h,
      (other_rules_silent_on_empty aid8).2.2, hot.1, hot.2.1, hot.2.2.1, hot.2.2.2.1,
      hot.2.2.2.2.1, hot.2.2.2.2.2, List.countP_nil]
  · unfold generate_findings
    have hun : generate_findings_unsorted aid8 raw = [] := by
      simp only [generate_findings_unsorted, payload_degraded _ h1, payload_degraded _ h2,
        payload_degraded _ h3, payload_degraded _ h4]
      simp [identity_rules_silent_on_empty, other_rules_silent_on_empty]
    rw [hun]
    rfl

/-- C9 witness: 82 percent user MFA coverage yields exactly one Users
Without MFA finding, with severity high. -/
theorem user_mfa_severity_thresholds_witness :
    ((generate_findings "deadbeef" snapshot_user_mfa_82).filter
        (fun f => f.title == "Users Without MFA")).map Finding.severity = ["high"] :=
  ((user_mfa_severity_thresholds "deadbeef" snapshot_user_mfa_82
      { mfa_coverage := some { user_coverage_percent := some 82 } }
      { user_coverage_percent := some 82 } 82 rfl rfl rfl).2.1)
    (by norm_num) (by norm_num)

/-- C10 witness: with every domain absent or an error sentinel, the
generator emits the empty finding list. -/
theorem degraded_domains_suppress_findings_witness :
    generate_findings "deadbeef" snapshot_all_errors = [] :=
  (degraded_domains_suppress_findings "deadbeef" snapshot_all_errors).2.2.2.2
    trivial trivial trivial trivial

/-- C7 witness: on the total-collection-failure snapshot, the category
scores agree with the absent-identity variant and the mapper output agrees
with the all-absent snapshot. -/
theorem scoring_tolerates_degraded_domains_witness :
    calculate_category_scores snapshot_all_errors
        = calculate_category_scores { snapshot_all_errors with identity := .absent } ∧
    map_to_framework .empty "cis" [] snapshot_all_errors
        = map_to_framework .empty "cis" [] RawSnapshot.empty := by
  have h := scoring_tolerates_degraded_domains snapshot_all_errors 0 .empty "cis" []
    RawSnapshot.empty
  exact ⟨h.1 trivial, h.2.2.2.2.2.2⟩

/-- C1 amended: when the previous-assessment directory lacks manifest.json,
the comparison step raises and the uncaught error aborts the remaining
pipeline with exit code 1: no comparison file, no reports and no
manifest.json of the current assessment are written, while everything
already on disk, the raw domain files and the findings, scores and
compliance analysis artifacts, is retained and not rolled back. -/
theorem missing_previous_manifest_aborts (args : CliArgs) (prev : PreviousDir)
    (hcw : args.compare_with = some prev) (hman : prev.has_manifest = false)
    (hdry : args.dry_run = false) :
    (run_assessment args).2 = some RunError.missing_previous_manifest ∧
    Artifact.manifest ∉ (run_assessment args).1 ∧
    Artifact.comparison ∉ (run_assessment args).1 ∧
    Artifact.reports ∉ (run_assessment args).1 ∧
    Artifact.findings ∈ (run_assessment args).1 ∧
    Artifact.scores ∈ (run_assessment args).1 ∧
    (∀ fw ∈ args.frameworks, Artifact.compliance fw ∈ (run_assessment args).1) ∧
    (∀ dm ∈ collection_domains, Artifact.raw_domain dm ∈ (run_assessment args).1) ∧
    cli_exit_code args = 1 := by
  have hrun : run_assessment args
      = (collection_domains.map Artifact.raw_domain ++ [Artifact.findings, Artifact.scores]
          ++ args.frameworks.map Artifact.compliance,
         some RunError.missing_previous_manifest) := by
    simp [run_assessment, hdry, hcw, hman]
  refine ⟨by rw [hrun], ?_, ?_, ?_, ?_, ?_, ?_, ?_, ?_⟩
  · rw [hrun]; simp
  · rw [hrun]; simp
  · rw [hrun]; simp
  · rw [hrun]; simp
  · rw [hrun]; simp
  · intro fw hfw
    rw [hrun]
    simp only [List.mem_append, List.mem_map]
    exact Or.inr ⟨fw, hfw, rfl⟩
  · intro dm hdm
    rw [hrun]
    simp only [List.mem_append, List.mem_map]
    exact Or.inl (Or.inl ⟨dm, hdm, rfl⟩)
  · simp [cli_exit_code, hrun]

/-- C1 counterexample: with a previous directory lacking manifest.json, the
run does not complete: manifest.json of the current assessment is never
written and the process fails with the missing-previous-manifest error,
refuting the claim that only the comparison step fails. -/
theorem missing_prev_manifest_not_scoped_cex :
    Artifact.manifest ∉ (run_assessment cex_missing_prev_args).1 ∧
    (run_assessment cex_missing_prev_args).2 = some RunError.missing_previous_manifest := by
  constructor <;> decide

/-- C1 witness: the abort theorem applied at a concrete configuration with
two frameworks. -/
theorem missing_previous_manifest_aborts_witness :
    (run_assessment witness_missing_prev_args).2 = some RunError.missing_previous_manifest ∧
    Artifact.manifest ∉ (run_assessment witness_missing_prev_args).1 ∧
    Artifact.comparison ∉ (run_assessment witness_missing_prev_args).1 ∧
    Artifact.reports ∉ (run_assessment witness_missing_prev_args).1 ∧
    Artifact.findings ∈ (run_assessment witness_missing_prev_args).1 ∧
    Artifact.scores ∈ (run_assessment witness_missing_prev_args).1 ∧
    (∀ fw ∈ witness_missing_prev_args.frameworks,
      Artifact.compliance fw ∈ (run_assessment witness_missing_prev_args).1) ∧
    (∀ dm ∈ collection_domains,
      Artifact.raw_domain dm ∈ (run_assessment witness_missing_prev_args).1) ∧
    cli_exit_code witness_missing_prev_args = 1 :=
  missing_previous_manifest_aborts witness_missing_prev_args ⟨false⟩ rfl rfl rfl

end AzureSec
